import Mathlib

/-!
Verification of the encrypted, versioned secret store of
`jans.pycloudlib.secret.google_secret` (class `GoogleSecret`).

The Python source is shallowly embedded: `bytes` values become `List (Fin 256)`,
`str` values become `List Char`, instance state becomes an explicit record that
is threaded through the methods, the remote Secret Manager is a `World` record,
and exceptions become `Except PyErr`.  External library primitives (PBKDF2,
AES-GCM, lzma, zlib, UTF-8, JSON serialisation) are collected in a `Prims`
record whose fields are uninterpreted; the repository's own logic (envelope
construction, splitting, key (re)derivation order, the retry loop, merge
behaviour, error handling) is translated literally from the source.
-/

/-- A Python byte: an integer in 0..255. -/
abbrev PyByte := Fin 256

/-- A Python `bytes` value. -/
abbrev PyBytes := List PyByte

/-- A Python `str` value, modelled as its list of characters. -/
abbrev PyStr := List Char

/-- The exceptions that can escape the embedded code, plus the two error
classes the specification's taxonomy postulates (`envelopeMalformed`,
`authenticationFailure`); the source defines no exception classes of its own,
so the latter two are never produced by the embedded code. -/
inductive PyErr where
  | notFound          -- google.api_core.exceptions.NotFound
  | alreadyExists     -- google.api_core.exceptions.AlreadyExists
  | valueError        -- ValueError (e.g. tuple-unpacking arity mismatch)
  | binasciiError     -- binascii.Error from unhexlify (a ValueError subclass)
  | lzmaError         -- lzma.LZMAError from lzma.decompress
  | zlibError         -- zlib.error from zlib.decompress
  | unicodeError      -- UnicodeDecodeError from bytes.decode
  | jsonError         -- json.JSONDecodeError from json.loads
  | attributeError    -- AttributeError (e.g. calling .decode on a str)
  | envelopeMalformed     -- spec taxonomy only; never raised by the code
  | authenticationFailure -- spec taxonomy only; never raised by the code
  deriving DecidableEq, Repr

/-- Python values as stored in the secret mapping. -/
inductive PyValue where
  | vNone
  | vBool (b : Bool)
  | vInt (n : Int)
  | vStr (s : PyStr)
  | vList (xs : List PyValue)
  | vDict (xs : List (PyStr × PyValue))

/-- Python truthiness of a value (`bool(v)`). -/
def PyValue.truthy : PyValue → Bool
  | .vNone => false
  | .vBool b => b
  | .vInt n => n != 0
  | .vStr s => !s.isEmpty
  | .vList xs => !xs.isEmpty
  | .vDict xs => !xs.isEmpty

/-- A Python `dict` with `str` keys, in insertion order. -/
abbrev PyDict := List (PyStr × PyValue)

/-- `d.get(k)`: the value of the first (unique) binding of `k`, if any. -/
def dictGet (d : PyDict) (k : PyStr) : Option PyValue :=
  match d.find? (fun p => p.1 = k) with
  | some p => some p.2
  | none => none

/-- `d[k] = v`: overwrite in place if the key exists, else append. -/
def dictSet (d : PyDict) (k : PyStr) (v : PyValue) : PyDict :=
  if d.any (fun p => p.1 = k) then
    d.map (fun p => if p.1 = k then (k, v) else p)
  else
    d ++ [(k, v)]

/-! ## Hex encoding (`binascii.hexlify` / `binascii.unhexlify`) -/

/-- The lowercase hex digit for a nibble, as produced by `hexlify`. -/
def nibbleChar (n : Fin 16) : Char :=
  if n.val < 10 then Char.ofNat (48 + n.val) else Char.ofNat (87 + n.val)

/-- `binascii.hexlify`: each byte becomes two lowercase hex characters. -/
def hexlify (bs : PyBytes) : PyStr :=
  bs.flatMap (fun b => [nibbleChar ⟨b.val / 16, by omega⟩, nibbleChar ⟨b.val % 16, by omega⟩])

/-- The value of a hex digit character, if it is one (`unhexlify` accepts
both cases). -/
def hexVal (c : Char) : Option (Fin 16) :=
  if h : 48 ≤ c.toNat ∧ c.toNat ≤ 57 then some ⟨c.toNat - 48, by omega⟩
  else if h : 97 ≤ c.toNat ∧ c.toNat ≤ 102 then some ⟨c.toNat - 87, by omega⟩
  else if h : 65 ≤ c.toNat ∧ c.toNat ≤ 70 then some ⟨c.toNat - 55, by omega⟩
  else none

/-- `binascii.unhexlify`: parse pairs of hex digits; raises `binascii.Error`
(a `ValueError` subclass) on odd length or a non-hex character. -/
def unhexlify : PyStr → Except PyErr PyBytes
  | [] => .ok []
  | [_] => .error .binasciiError
  | c1 :: c2 :: rest =>
    match hexVal c1, hexVal c2 with
    | some h, some l =>
      match unhexlify rest with
      | .ok bs => .ok (⟨h.val * 16 + l.val, by omega⟩ :: bs)
      | .error e => .error e
    | _, _ => .error .binasciiError

/-! ## `str.split("-")` -/

/-- Python's `s.split("-")`: the (always nonempty) list of maximal dash-free
segments; `"".split("-") == [""]`. -/
def splitDash : PyStr → List PyStr
  | [] => [[]]
  | c :: cs =>
    if c = '-' then [] :: splitDash cs
    else
      match splitDash cs with
      | [] => [[c]]
      | p :: ps => (c :: p) :: ps

theorem splitDash_ne_nil (s : PyStr) : splitDash s ≠ [] := by
  induction s with
  | nil => simp [splitDash]
  | cons c cs ih =>
    simp only [splitDash]
    split
    · simp
    · cases h : splitDash cs <;> simp

/-- Splitting a dash-free string returns it whole. -/
theorem splitDash_of_no_dash (s : PyStr) (h : '-' ∉ s) : splitDash s = [s] := by
  induction s with
  | nil => rfl
  | cons c cs ih =>
    simp only [List.mem_cons, not_or] at h
    have hc : ¬ c = '-' := fun hh => h.1 hh.symm
    simp only [splitDash, if_neg hc, ih h.2]

/-- Splitting `a ++ "-" ++ rest` with `a` dash-free peels off `a`. -/
theorem splitDash_append (a : PyStr) (rest : PyStr) (h : '-' ∉ a) :
    splitDash (a ++ '-' :: rest) = a :: splitDash rest := by
  induction a with
  | nil => simp [splitDash]
  | cons c cs ih =>
    simp only [List.mem_cons, not_or] at h
    have hc : ¬ c = '-' := fun hh => h.1 hh.symm
    simp only [List.cons_append, splitDash, if_neg hc, List.append_eq]
    rw [ih h.2]

theorem hexVal_nibbleChar (n : Fin 16) : hexVal (nibbleChar n) = some n := by
  revert n; decide

theorem nibbleChar_ne_dash (n : Fin 16) : nibbleChar n ≠ '-' := by
  revert n; decide

/-- `unhexlify` inverts `hexlify`. -/
theorem unhexlify_hexlify (bs : PyBytes) : unhexlify (hexlify bs) = .ok bs := by
  induction bs with
  | nil => rfl
  | cons b rest ih =>
    have hstep : hexlify (b :: rest) =
        nibbleChar ⟨b.val / 16, by omega⟩ :: nibbleChar ⟨b.val % 16, by omega⟩ :: hexlify rest :=
      rfl
    rw [hstep]
    simp only [unhexlify, hexVal_nibbleChar, ih]
    have hb : (⟨(b.val / 16) * 16 + b.val % 16, by omega⟩ : PyByte) = b := by
      apply Fin.ext
      show (b.val / 16) * 16 + b.val % 16 = b.val
      omega
    rw [hb]

/-- Hex output never contains the `-` separator. -/
theorem dash_notin_hexlify (bs : PyBytes) : '-' ∉ hexlify bs := by
  intro hmem
  simp only [hexlify, List.mem_flatMap] at hmem
  obtain ⟨b, _, hb⟩ := hmem
  simp only [List.mem_cons, List.not_mem_nil] at hb
  rcases hb with h | h | h
  · exact nibbleChar_ne_dash _ h.symm
  · exact nibbleChar_ne_dash _ h.symm
  · exact h

/-- Splitting a well-formed envelope recovers exactly its three hex parts. -/
theorem splitDash_envelope (a b c : PyBytes) :
    splitDash (hexlify a ++ '-' :: (hexlify b ++ '-' :: hexlify c)) =
      [hexlify a, hexlify b, hexlify c] := by
  rw [splitDash_append _ _ (dash_notin_hexlify a),
      splitDash_append _ _ (dash_notin_hexlify b),
      splitDash_of_no_dash _ (dash_notin_hexlify c)]

/-! ## External library primitives

The cryptography, compression and serialisation libraries used by
`google_secret.py` (hashlib, AESGCM, lzma, zlib, UTF-8 codecs, json, and the
repository's `jans.pycloudlib.utils.safe_value`, whose source is not part of
this tree) are modelled as uninterpreted functions collected in one record.
Errors of the fallible ones are `Except Unit`; the embedded store code maps
each failure to the Python exception class the library raises there. -/

structure Prims where
  /-- `hashlib.pbkdf2_hmac(hash_name, password, salt, iterations)`. -/
  pbkdf2Hmac : PyStr → PyBytes → PyBytes → Nat → PyBytes
  /-- `AESGCM(key).encrypt(nonce, data, aad)` with `aad = None`. -/
  aesgcmEncrypt : PyBytes → PyBytes → PyBytes → PyBytes
  /-- `AESGCM(key).decrypt(nonce, data, aad)`; `.error ()` is `InvalidTag`. -/
  aesgcmDecrypt : PyBytes → PyBytes → PyBytes → Except Unit PyBytes
  /-- `lzma.compress`. -/
  lzmaCompress : PyBytes → PyBytes
  /-- `lzma.decompress`; `.error ()` is `lzma.LZMAError`. -/
  lzmaDecompress : PyBytes → Except Unit PyBytes
  /-- `zlib.compress`. -/
  zlibCompress : PyBytes → PyBytes
  /-- `zlib.decompress`; `.error ()` is `zlib.error`. -/
  zlibDecompress : PyBytes → Except Unit PyBytes
  /-- `str.encode("utf8")`. -/
  utf8Encode : PyStr → PyBytes
  /-- `bytes.decode("utf8")`; `.error ()` is `UnicodeDecodeError`. -/
  utf8Decode : PyBytes → Except Unit PyStr
  /-- `json.loads` restricted to objects; `.error ()` is `JSONDecodeError`. -/
  jsonLoads : PyStr → Except Unit PyDict
  /-- Modelled from the spec: `jans.pycloudlib.utils.safe_value` applied to a
  whole mapping — serialises it to its UTF-8 JSON string form (the module is
  imported by `google_secret.py` but its source is not in this tree). -/
  safeValueStr : PyDict → PyStr
  /-- Modelled from the spec: `safe_value` applied to a single value — its
  JSON-compatible string form. -/
  safeValue : PyValue → PyValue
  /-- `os.urandom(16)`: the n-th 16-byte draw from the OS entropy source. -/
  urandom16 : Nat → PyBytes

/-! ## `GoogleSecret` instance state -/

/-- The instance fields of `GoogleSecret` (the remote client object is
modelled separately as the `World`). -/
structure SecretState where
  projectId : Option PyStr
  versionId : PyStr
  salt : PyBytes
  passphrase : PyStr
  googleSecretName : PyStr
  key : PyBytes
  deriving DecidableEq

/-- The environment variables read by `GoogleSecret.__init__`. -/
structure PyEnv where
  googleProjectId : Option PyStr
  cnGoogleSecretVersionId : Option PyStr
  cnGoogleSecretManagerPassphrase : Option PyStr
  cnSecretGoogleSecret : Option PyStr

namespace GoogleSecret

/-- `GoogleSecret._set_key`: PBKDF2-HMAC-SHA256 over the instance passphrase
and the instance salt, 1000 iterations. -/
def setKey (P : Prims) (st : SecretState) : PyBytes :=
  P.pbkdf2Hmac "sha256".toList (P.utf8Encode st.passphrase) st.salt 1000

/-- `GoogleSecret.__init__`: reads the environment, draws a 16-byte salt
(`saltRandom` stands for the `os.urandom(16)` result) and derives the key. -/
def init (P : Prims) (env : PyEnv) (saltRandom : PyBytes) (configuration : Bool) :
    SecretState :=
  let passphrase := env.cnGoogleSecretManagerPassphrase.getD "secret".toList
  let base := env.cnSecretGoogleSecret.getD "jans".toList
  let name :=
    if configuration then base ++ "-configuration".toList else base ++ "-secret".toList
  let st0 : SecretState :=
    { projectId := env.googleProjectId
      versionId := env.cnGoogleSecretVersionId.getD "latest".toList
      salt := saltRandom
      passphrase := passphrase
      googleSecretName := name
      key := [] }
  { st0 with key := setKey P st0 }

/-- `GoogleSecret._encrypt`: lzma-compress the UTF-8 plaintext, AES-GCM
encrypt it under the cached instance key with a fresh nonce `iv`, and format
`hex(salt)-hex(iv)-hex(ciphertext)`.  The instance state is not modified. -/
def encrypt (P : Prims) (st : SecretState) (iv : PyBytes) (plaintext : PyStr) : PyStr :=
  let pt := P.lzmaCompress (P.utf8Encode plaintext)
  let ciphertext := P.aesgcmEncrypt st.key iv pt
  hexlify st.salt ++ '-' :: (hexlify iv ++ '-' :: hexlify ciphertext)

/-- The unpacking line `salt, iv, ct = map(unhexlify, s.split("-"))`:
the lazy map is consumed element by element, so a `binascii.Error` from an
early part surfaces before the arity `ValueError`; a fourth part is also
unhexlified (pulled to detect excess) before `ValueError` is raised. -/
def unpackEnvelope (parts : List PyStr) : Except PyErr (PyBytes × PyBytes × PyBytes) :=
  match parts with
  | [] => .error .valueError
  | [a] =>
    match unhexlify a with
    | .error e => .error e
    | .ok _ => .error .valueError
  | [a, b] =>
    match unhexlify a with
    | .error e => .error e
    | .ok _ =>
      match unhexlify b with
      | .error e => .error e
      | .ok _ => .error .valueError
  | [a, b, c] =>
    match unhexlify a with
    | .error e => .error e
    | .ok x =>
      match unhexlify b with
      | .error e => .error e
      | .ok y =>
        match unhexlify c with
        | .error e => .error e
        | .ok z => .ok (x, y, z)
  | a :: b :: c :: d :: _ =>
    match unhexlify a with
    | .error e => .error e
    | .ok _ =>
      match unhexlify b with
      | .error e => .error e
      | .ok _ =>
        match unhexlify c with
        | .error e => .error e
        | .ok _ =>
          match unhexlify d with
          | .error e => .error e
          | .ok _ => .error .valueError

/-- `GoogleSecret._decrypt`: split the envelope, overwrite `self.salt` with
the decoded salt segment, re-derive `self.key` from it, AES-GCM decrypt, lzma
decompress, UTF-8 decode.  `InvalidTag` is caught and only logged, after which
`plaintext` still holds its `str` initialiser `""`, so the final
`plaintext.decode("utf8")` raises `AttributeError`.  Returns the result
together with the (possibly mutated) instance state. -/
def decrypt (P : Prims) (st : SecretState) (ciphertext : PyStr) :
    Except PyErr PyStr × SecretState :=
  match unpackEnvelope (splitDash ciphertext) with
  | .error e => (.error e, st)
  | .ok (salt, iv, ct) =>
    let st1 : SecretState := { st with salt := salt }
    let st2 : SecretState := { st1 with key := setKey P st1 }
    match P.aesgcmDecrypt st2.key iv ct with
    | .error _ => (.error .attributeError, st2)
    | .ok pt =>
      match P.lzmaDecompress pt with
      | .error _ => (.error .lzmaError, st2)
      | .ok pt2 =>
        match P.utf8Decode pt2 with
        | .error _ => (.error .unicodeError, st2)
        | .ok s => (.ok s, st2)

end GoogleSecret

/-! ## The remote versioned secret backend

Modelled from the spec: the backend contract of §6 (`createSecretIfAbsent`,
`addSecretVersion`, `accessSecretVersion`, `deleteSecret`, with `NotFound`
distinguished from `AlreadyExists`); the Google client library itself is not
part of this tree.  A secret resource is either absent or an append-only list
of version payloads; `"latest"` resolves to the last appended version. -/

structure World where
  /-- `none`: the secret resource does not exist; `some vs`: it exists and
  holds the version payloads `vs` in append order. -/
  resource : Option (List PyBytes)
  deriving DecidableEq

/-- `client.access_secret_version` with the `"latest"` alias: the last
appended version, `NotFound` if the resource is absent or has no versions. -/
def accessLatest (w : World) : Except PyErr PyBytes :=
  match w.resource with
  | none => .error .notFound
  | some [] => .error .notFound
  | some (v :: vs) => .ok ((v :: vs).getLast (by simp))

namespace GoogleSecret

/-- `GoogleSecret.create_secret`: create the resource; a raised
`AlreadyExists` is caught and logged, leaving `response` falsy.  Returns
`bool(response)` and the new world. -/
def createSecret (w : World) : Bool × World :=
  match w.resource with
  | some vs => (false, { resource := some vs })
  | none => (true, { resource := some [] })

/-- `GoogleSecret.add_secret_version`: zlib-compress the UTF-8 payload and
append it as a new version.  Nothing is caught here: a `NotFound` for an
absent resource propagates to the caller. -/
def addSecretVersion (P : Prims) (w : World) (payload : PyStr) :
    Except PyErr (Bool × World) :=
  let data := P.zlibCompress (P.utf8Encode payload)
  match w.resource with
  | none => .error .notFound
  | some vs => .ok (true, { resource := some (vs ++ [data]) })

/-- `GoogleSecret.delete`: delete the resource; a raised `NotFound` is caught
and logged, so deleting an absent resource returns normally. -/
def deleteSecret (w : World) : Except PyErr Unit × World :=
  match w.resource with
  | none => (.ok (), w)
  | some _ => (.ok (), { resource := none })

/-- The body of `all()`'s `while retry:` loop, translated literally; `ent` is
the index of the next `os.urandom` draw and `fuel` bounds the iteration count
(`none` models a loop that reaches its bound, i.e. runs without terminating
on its own).  The loop guard `retry` is tested before anything else, exactly
as `while retry:` does. -/
def allLoop (P : Prims) :
    Nat → Bool → PyDict → SecretState → Nat → World →
      Option (Except PyErr PyDict × SecretState × Nat × World)
  | fuel, retry, data, st, ent, w =>
    if retry = false then some (.ok data, st, ent, w)
    else
    match fuel with
    | 0 => none
    | Nat.succ fuel =>
    match accessLatest w with
    | .ok raw =>
      -- payload = zlib.decompress(response.payload.data).decode("UTF-8")
      match P.zlibDecompress raw with
      | .error _ => some (.error .zlibError, st, ent, w)
      | .ok bs =>
        match P.utf8Decode bs with
        | .error _ => some (.error .unicodeError, st, ent, w)
        | .ok payload =>
          -- data = json.loads(self._decrypt(payload)); retry = False
          match decrypt P st payload with
          | (.error e, st1) => some (.error e, st1, ent, w)
          | (.ok ptext, st1) =>
            match P.jsonLoads ptext with
            | .error _ => some (.error .jsonError, st1, ent, w)
            | .ok d => allLoop P fuel false d st1 ent w
    | .error .notFound =>
      -- except NotFound: create_secret(); add_secret_version(_encrypt(safe_value({})))
      let (_, w1) := createSecret w
      let payload := encrypt P st (P.urandom16 ent) (P.safeValueStr [])
      match addSecretVersion P w1 payload with
      | .error e => some (.error e, st, ent + 1, w1)
      | .ok (_, w2) => allLoop P fuel true data st (ent + 1) w2
    | .error e => some (.error e, st, ent, w)

/-- `GoogleSecret.all`: `data = {}; retry = False; while retry: ...; return
data`.  The guard is initialised `False`, so the loop body never runs; any
fuel bound is ample. -/
def all (P : Prims) (st : SecretState) (ent : Nat) (w : World) :
    Option (Except PyErr PyDict × SecretState × Nat × World) :=
  allLoop P 1000000 false [] st ent w

/-- The `result.get(key) or default` expression of `GoogleSecret.get`:
`dict.get` yields `None` for an absent key, and `x or default` yields `x`
exactly when `x` is truthy. -/
def getOrDefault (result : PyDict) (key : PyStr) (default : PyValue) : PyValue :=
  match dictGet result key with
  | some v => if v.truthy then v else default
  | none => default

/-- `GoogleSecret.get`: `result = self.all(); return result.get(key) or
default`. -/
def get (P : Prims) (st : SecretState) (ent : Nat) (w : World)
    (key : PyStr) (default : PyValue) :
    Option (Except PyErr PyValue × SecretState × Nat × World) :=
  match all P st ent w with
  | none => none
  | some (.error e, st1, ent1, w1) => some (.error e, st1, ent1, w1)
  | some (.ok result, st1, ent1, w1) =>
    some (.ok (getOrDefault result key default), st1, ent1, w1)

/-- `GoogleSecret.set`: fetch the current mapping via `all()`, then either
replace it wholesale from `data` (when `data` is truthy, i.e. a nonempty
dict) or overwrite the single `key`, ensure the resource exists, and append
one new encrypted version. -/
def set (P : Prims) (st : SecretState) (ent : Nat) (w : World)
    (key : PyStr) (value : PyValue) (data : Option PyDict) :
    Option (Except PyErr Bool × SecretState × Nat × World) :=
  match all P st ent w with
  | none => none
  | some (.error e, st1, ent1, w1) => some (.error e, st1, ent1, w1)
  | some (.ok current, st1, ent1, w1) =>
    let m : PyDict :=
      match data with
      | some (kv :: kvs) =>
        -- `if data:` — truthy only for a nonempty dict
        (kv :: kvs).foldl (fun acc p => dictSet acc p.1 (P.safeValue p.2)) []
      | _ => dictSet current key (P.safeValue value)
    let (_, w2) := createSecret w1
    let payload := encrypt P st1 (P.urandom16 ent1) (P.safeValueStr m)
    match addSecretVersion P w2 payload with
    | .error e => some (.error e, st1, ent1 + 1, w2)
    | .ok (b, w3) => some (.ok b, st1, ent1 + 1, w3)

end GoogleSecret

/-! ## The full write and read pipelines

`storedPayload` is the byte string handed to the backend by
`set`/`add_secret_version` for a mapping `M`; `readStored` is what `all()`'s
success path would do with a fetched version payload (zlib-decompress, UTF-8
decode, `_decrypt`, `json.loads`). -/

/-- Write pipeline: inner compress + AEAD encrypt + hex envelope
(`_encrypt`), then UTF-8 encode and outer zlib compress
(`add_secret_version`). -/
def storedPayload (P : Prims) (st : SecretState) (iv : PyBytes) (m : PyDict) : PyBytes :=
  P.zlibCompress (P.utf8Encode (GoogleSecret.encrypt P st iv (P.safeValueStr m)))

/-- Read pipeline applied to a fetched version payload, as in the success
branch of `all()`. -/
def readStored (P : Prims) (st : SecretState) (raw : PyBytes) :
    Except PyErr PyDict × SecretState :=
  match P.zlibDecompress raw with
  | .error _ => (.error .zlibError, st)
  | .ok bs =>
    match P.utf8Decode bs with
    | .error _ => (.error .unicodeError, st)
    | .ok payload =>
      match GoogleSecret.decrypt P st payload with
      | (.error e, st1) => (.error e, st1)
      | (.ok ptext, st1) =>
        match P.jsonLoads ptext with
        | .error _ => (.error .jsonError, st1)
        | .ok d => (.ok d, st1)

/-! ## A concrete instantiation of the external primitives

Used to evaluate the embedded code on concrete inputs: simple executable
stand-ins satisfying the interface contracts the theorems assume (lossless
codecs, tamper-detecting AEAD, deterministic KDF). -/

/-- Marker byte prepended by the lzma stand-in. -/
def markByteL : PyByte := ⟨76, by omega⟩

/-- Marker byte prepended by the zlib stand-in. -/
def markByteZ : PyByte := ⟨90, by omega⟩

/-- Character codec stand-in: three little-endian base-256 digits of the code
point (every code point is below 2^24). -/
def encChar (c : Char) : PyBytes :=
  [⟨c.toNat % 256, by omega⟩, ⟨c.toNat / 256 % 256, by omega⟩,
   ⟨c.toNat / 65536 % 256, by omega⟩]

def encodeStr (s : PyStr) : PyBytes := s.flatMap encChar

def decodeStr : PyBytes → Except Unit PyStr
  | [] => .ok []
  | b0 :: b1 :: b2 :: rest =>
    match decodeStr rest with
    | .ok s => .ok (Char.ofNat (b0.val + 256 * b1.val + 65536 * b2.val) :: s)
    | .error e => .error e
  | _ => .error ()

theorem char_toNat_lt (c : Char) : c.toNat < 1114112 := by
  have h := c.valid
  show c.val.toNat < 1114112
  rcases h with h | h <;> omega

theorem decodeStr_encodeStr (s : PyStr) : decodeStr (encodeStr s) = .ok s := by
  induction s with
  | nil => rfl
  | cons c cs ih =>
    have hstep : encodeStr (c :: cs) =
        ⟨c.toNat % 256, by omega⟩ :: ⟨c.toNat / 256 % 256, by omega⟩ ::
          ⟨c.toNat / 65536 % 256, by omega⟩ :: encodeStr cs := rfl
    rw [hstep]
    simp only [decodeStr, ih]
    have hval : c.toNat % 256 + 256 * (c.toNat / 256 % 256) +
        65536 * (c.toNat / 65536 % 256) = c.toNat := by
      have hlt := char_toNat_lt c
      omega
    rw [hval, Char.ofNat_toNat]

/-- AEAD stand-in: prepend key and nonce; decryption checks them as a tag. -/
def testAesEnc (k iv pt : PyBytes) : PyBytes := k ++ iv ++ pt

def testAesDec (k iv ct : PyBytes) : Except Unit PyBytes :=
  let tag := k ++ iv
  if ct.take tag.length = tag then .ok (ct.drop tag.length) else .error ()

theorem testAesDec_enc (k iv pt : PyBytes) :
    testAesDec k iv (testAesEnc k iv pt) = .ok pt := by
  show (if List.take (List.length (k ++ iv)) (k ++ iv ++ pt) = k ++ iv then
      Except.ok (List.drop (List.length (k ++ iv)) (k ++ iv ++ pt))
    else Except.error ()) = Except.ok pt
  rw [List.take_left, List.drop_left, if_pos rfl]

/-- Unary count used by the serializer stand-in. -/
def marks (n : Nat) : PyStr := List.replicate n '*'

/-- Serializer stand-in for scalar values (the concrete runs only store
scalars; nested values get an opaque tag). -/
def printScalar : PyValue → PyStr
  | .vNone => ['N']
  | .vBool true => ['T']
  | .vBool false => ['F']
  | .vInt n => 'I' :: (if n < 0 then 'm' else 'p') :: (marks n.natAbs ++ ['.'])
  | .vStr s => 'S' :: (marks s.length ++ '.' :: s)
  | .vList _ => ['X']
  | .vDict _ => ['Y']

/-- Serializer stand-in for a whole mapping. -/
def printDict (ps : PyDict) : PyStr :=
  'D' :: (marks ps.length ++ '.' ::
    ps.flatMap (fun p => 'K' :: (marks p.1.length ++ '.' :: (p.1 ++ printScalar p.2))))

def parseScalar (s : PyStr) : Except Unit (PyValue × PyStr) :=
  match s with
  | 'N' :: r => .ok (.vNone, r)
  | 'T' :: r => .ok (.vBool true, r)
  | 'F' :: r => .ok (.vBool false, r)
  | 'I' :: sign :: r =>
    let n := (r.takeWhile (fun c => c = '*')).length
    match r.drop n with
    | '.' :: r2 => .ok (.vInt (if sign = 'm' then -(n : Int) else (n : Int)), r2)
    | _ => .error ()
  | 'S' :: r =>
    let n := (r.takeWhile (fun c => c = '*')).length
    match r.drop n with
    | '.' :: r2 =>
      if n ≤ r2.length then .ok (.vStr (r2.take n), r2.drop n) else .error ()
    | _ => .error ()
  | _ => .error ()

def parseEntries : Nat → PyStr → Except Unit (PyDict × PyStr)
  | 0, s => .ok ([], s)
  | Nat.succ k, s =>
    match s with
    | 'K' :: r =>
      let n := (r.takeWhile (fun c => c = '*')).length
      match r.drop n with
      | '.' :: r2 =>
        if n ≤ r2.length then
          match parseScalar (r2.drop n) with
          | .ok (v, r3) =>
            match parseEntries k r3 with
            | .ok (d, r4) => .ok ((r2.take n, v) :: d, r4)
            | .error e => .error e
          | .error e => .error e
        else .error ()
      | _ => .error ()
    | _ => .error ()

def parseDict (s : PyStr) : Except Unit PyDict :=
  match s with
  | 'D' :: r =>
    let n := (r.takeWhile (fun c => c = '*')).length
    match r.drop n with
    | '.' :: r2 =>
      match parseEntries n r2 with
      | .ok (d, []) => .ok d
      | _ => .error ()
    | _ => .error ()
  | _ => .error ()

/-- The concrete primitive pack. -/
def testPrims : Prims where
  pbkdf2Hmac := fun _hash pass salt _iters => pass ++ salt
  aesgcmEncrypt := testAesEnc
  aesgcmDecrypt := testAesDec
  lzmaCompress := fun bs => markByteL :: bs
  lzmaDecompress := fun bs =>
    match bs with
    | b :: rest => if b = markByteL then .ok rest else .error ()
    | [] => .error ()
  zlibCompress := fun bs => markByteZ :: bs
  zlibDecompress := fun bs =>
    match bs with
    | b :: rest => if b = markByteZ then .ok rest else .error ()
    | [] => .error ()
  utf8Encode := encodeStr
  utf8Decode := decodeStr
  jsonLoads := parseDict
  safeValueStr := printDict
  safeValue := fun v => v
  urandom16 := fun n => List.replicate 16 ⟨n % 256, Nat.mod_lt n (by omega)⟩

theorem testPrims_lzma_rt (x : PyBytes) :
    testPrims.lzmaDecompress (testPrims.lzmaCompress x) = .ok x := by
  simp [testPrims]

theorem testPrims_zlib_rt (x : PyBytes) :
    testPrims.zlibDecompress (testPrims.zlibCompress x) = .ok x := by
  simp [testPrims]

theorem testPrims_utf8_rt (s : PyStr) :
    testPrims.utf8Decode (testPrims.utf8Encode s) = .ok s :=
  decodeStr_encodeStr s

theorem testPrims_aes_rt (k iv pt : PyBytes) :
    testPrims.aesgcmDecrypt k iv (testPrims.aesgcmEncrypt k iv pt) = .ok pt :=
  testAesDec_enc k iv pt

/-! ## Concrete fixtures -/

def envDemo : PyEnv :=
  { googleProjectId := none
    cnGoogleSecretVersionId := none
    cnGoogleSecretManagerPassphrase := none
    cnSecretGoogleSecret := none }

/-- A concrete `os.urandom(16)` result. -/
def salt16A : PyBytes := List.replicate 16 ⟨7, by omega⟩

/-- A store instance built with all environment defaults. -/
def stDemo : SecretState := GoogleSecret.init testPrims envDemo salt16A false

/-- The world of a brand-new deployment: the secret resource is absent, and
every access raises `NotFound`. -/
def wAbsent : World := { resource := none }

/-- A world whose resource exists (with no versions yet). -/
def wEmptyRes : World := { resource := some [] }

def aKey : PyStr := "a".toList

def bKey : PyStr := "b".toList

/-! ## Claim theorems -/

/-- C1: the claim says the first `all()` against an absent resource triggers
creation (create-if-absent plus appending an encrypted empty mapping) and
returns the empty mapping.  In the code the loop guard `retry` is initialised
`False`, so the `while retry:` body is dead: every call to `all()` — first or
second — returns `{}` immediately without a single backend call, and the
resource is never created (the world is returned unchanged, still absent,
and the entropy counter shows no nonce was ever drawn). -/
theorem C1_all_on_fresh_store_never_creates (P : Prims) (st : SecretState) (ent : Nat) :
    GoogleSecret.all P st ent wAbsent = some (.ok [], st, ent, wAbsent) ∧
    wAbsent.resource = none :=
  ⟨rfl, rfl⟩

/-- C7 counterexample: against a persistently missing resource (the world
where every fetch raises `NotFound`), `all()` does not fail after one heal
attempt as the claim states: it returns `Except.ok {}` with the world and
entropy counter untouched — zero fetches, zero heal attempts, no error. -/
theorem C7_counterexample :
    GoogleSecret.all testPrims stDemo 0 wAbsent = some (.ok [], stDemo, 0, wAbsent) :=
  rfl

/-- C7 amended: the loop guard `retry` of `all()` is initialised `False`, so
the Fetch/Heal body is dead code.  `all()` therefore performs zero fetches
and zero heal attempts and terminates immediately on every backend —
including a persistently inconsistent one — returning `{}` and leaving the
instance state, entropy counter and backend world untouched; it never fails
and never loops.  (Had the guard started `True`, the body would re-enter the
heal branch on every repeated `NotFound` with no bound.) -/
theorem C7_all_terminates_with_zero_heals (P : Prims) (st : SecretState) (ent : Nat)
    (w : World) :
    GoogleSecret.all P st ent w = some (.ok [], st, ent, w) :=
  rfl

/-- C8 counterexample: the claim says a `NotFound` raised during `delete()`
of a non-existent resource propagates to the caller; the code catches it and
returns normally. -/
theorem C8_counterexample :
    GoogleSecret.deleteSecret wAbsent = (.ok (), wAbsent) ∧
    (GoogleSecret.deleteSecret wAbsent).1 ≠ Except.error PyErr.notFound := by
  refine ⟨rfl, fun h => ?_⟩
  exact Except.noConfusion h

/-- C8 amended: `AlreadyExists` during `create_secret` is swallowed (the
call returns `False` and the world is unchanged), and `NotFound` during
`delete()` of a non-existent resource is also swallowed (caught and logged);
a `NotFound` raised by `add_secret_version` against an absent resource, by
contrast, propagates to the caller unmodified. -/
theorem C8_error_swallowing_policy (P : Prims) (w : World) :
    (w.resource = none → GoogleSecret.deleteSecret w = (.ok (), w)) ∧
    (w.resource ≠ none → GoogleSecret.createSecret w = (false, w)) ∧
    (w.resource = none → ∀ payload, GoogleSecret.addSecretVersion P w payload =
      .error .notFound) := by
  obtain ⟨r⟩ := w
  cases r with
  | none => exact ⟨fun _ => rfl, fun h => absurd rfl h, fun _ _ => rfl⟩
  | some vs =>
    exact ⟨fun h => Option.noConfusion h, fun _ => rfl, fun h => Option.noConfusion h⟩

theorem C8_error_swallowing_policy_witness :
    GoogleSecret.deleteSecret wAbsent = (.ok (), wAbsent) ∧
    GoogleSecret.createSecret wEmptyRes = (false, wEmptyRes) ∧
    GoogleSecret.addSecretVersion testPrims wAbsent [] = .error .notFound := by
  refine ⟨(C8_error_swallowing_policy testPrims wAbsent).1 rfl,
          (C8_error_swallowing_policy testPrims wEmptyRes).2.1 ?_,
          (C8_error_swallowing_policy testPrims wAbsent).2.2 rfl []⟩
  intro h
  exact Option.noConfusion h

/-- C9: `get(key, default)` calls `all()` and evaluates `result.get(key) or
default`: a stored truthy value is returned; a stored falsy value (empty
string, zero, empty list) yields `default`, exactly as an absent key does —
so a stored falsy value is indistinguishable from an absent key. -/
theorem C9_get_truthy_or_default (P : Prims) (st : SecretState) (ent : Nat) (w : World)
    (key : PyStr) (default : PyValue) (m : PyDict) :
    (∀ r st1 ent1 w1,
        GoogleSecret.all P st ent w = some (.ok r, st1, ent1, w1) →
        GoogleSecret.get P st ent w key default =
          some (.ok (GoogleSecret.getOrDefault r key default), st1, ent1, w1)) ∧
    (∀ v, dictGet m key = some v → v.truthy = true →
        GoogleSecret.getOrDefault m key default = v) ∧
    (∀ v, dictGet m key = some v → v.truthy = false →
        GoogleSecret.getOrDefault m key default = default) ∧
    (dictGet m key = none → GoogleSecret.getOrDefault m key default = default) := by
  refine ⟨?_, ?_, ?_, ?_⟩
  · intro r st1 ent1 w1 h
    unfold GoogleSecret.get
    rw [h]
  · intro v hv ht
    simp [GoogleSecret.getOrDefault, hv, ht]
  · intro v hv ht
    simp [GoogleSecret.getOrDefault, hv, ht]
  · intro hv
    simp [GoogleSecret.getOrDefault, hv]

theorem C9_get_truthy_or_default_witness :
    GoogleSecret.getOrDefault [(aKey, PyValue.vStr [])] aKey (PyValue.vInt 5) =
      PyValue.vInt 5 ∧
    GoogleSecret.getOrDefault [] aKey (PyValue.vInt 5) = PyValue.vInt 5 ∧
    GoogleSecret.get testPrims stDemo 0 wAbsent aKey (PyValue.vInt 5) =
      some (.ok (PyValue.vInt 5), stDemo, 0, wAbsent) := by
  refine ⟨(C9_get_truthy_or_default testPrims stDemo 0 wAbsent aKey (PyValue.vInt 5)
            [(aKey, PyValue.vStr [])]).2.2.1 (PyValue.vStr []) rfl rfl,
          (C9_get_truthy_or_default testPrims stDemo 0 wAbsent aKey (PyValue.vInt 5)
            []).2.2.2 rfl,
          ?_⟩
  exact (C9_get_truthy_or_default testPrims stDemo 0 wAbsent aKey (PyValue.vInt 5)
    []).1 [] stDemo 0 wAbsent rfl

/-- The hex-salt segment of an envelope string. -/
def envelopeSaltHex (s : PyStr) : PyStr := (splitDash s).headI

def iv16B : PyBytes := List.replicate 16 ⟨1, by omega⟩

def iv16C : PyBytes := List.replicate 16 ⟨2, by omega⟩

/-- C3 counterexample: two successive encryptions on the same instance, with
different nonces and different plaintexts, embed the very same salt — the
instance salt cached since construction — so the salt is not 16 freshly
generated random bytes per encryption. -/
theorem C3_counterexample :
    envelopeSaltHex (GoogleSecret.encrypt testPrims stDemo iv16B "x".toList) =
      envelopeSaltHex (GoogleSecret.encrypt testPrims stDemo iv16C "y".toList) ∧
    iv16B ≠ iv16C ∧
    envelopeSaltHex (GoogleSecret.encrypt testPrims stDemo iv16B "x".toList) =
      hexlify stDemo.salt := by
  exact ⟨rfl, by decide, rfl⟩

/-- C3 amended: the salt is 16 random bytes drawn once in `__init__` and
cached on the instance together with the key derived from it; `_encrypt`
reuses the cached instance salt and key on every encryption (only the nonce
is fresh per operation), embedding the cached salt in the envelope; the key
is not recomputed on encryption. -/
theorem C3_salt_and_key_cached_per_instance (P : Prims) (env : PyEnv) (saltR : PyBytes)
    (cfg : Bool) (st : SecretState) (iv : PyBytes) (pt : PyStr) :
    (GoogleSecret.init P env saltR cfg).salt = saltR ∧
    (GoogleSecret.init P env saltR cfg).key =
      GoogleSecret.setKey P (GoogleSecret.init P env saltR cfg) ∧
    GoogleSecret.encrypt P st iv pt =
      hexlify st.salt ++ '-' :: (hexlify iv ++ '-' ::
        hexlify (P.aesgcmEncrypt st.key iv (P.lzmaCompress (P.utf8Encode pt)))) ∧
    envelopeSaltHex (GoogleSecret.encrypt P st iv pt) = hexlify st.salt := by
  refine ⟨rfl, rfl, rfl, ?_⟩
  unfold envelopeSaltHex GoogleSecret.encrypt
  rw [splitDash_append _ _ (dash_notin_hexlify st.salt)]
  rfl

/-- C10: a successful `_decrypt` overwrites exactly two instance fields: the
salt (with the salt segment decoded from the envelope) and the key
(re-derived by PBKDF2 from the unchanged passphrase and that decoded salt);
project id, version id, passphrase and resource name are untouched, and any
subsequent `_encrypt` on the same instance embeds the last-decrypted
envelope's salt and uses the re-derived key rather than fresh ones. -/
theorem C10_decrypt_overwrites_salt_and_key (P : Prims) (st : SecretState)
    (s : PyStr) (res : PyStr) (st2 : SecretState)
    (h : GoogleSecret.decrypt P st s = (.ok res, st2)) :
    ∃ salt iv ct, GoogleSecret.unpackEnvelope (splitDash s) = .ok (salt, iv, ct) ∧
      st2.salt = salt ∧
      st2.key = P.pbkdf2Hmac "sha256".toList (P.utf8Encode st.passphrase) salt 1000 ∧
      st2.projectId = st.projectId ∧
      st2.versionId = st.versionId ∧
      st2.passphrase = st.passphrase ∧
      st2.googleSecretName = st.googleSecretName ∧
      (∀ iv2 pt, GoogleSecret.encrypt P st2 iv2 pt =
        hexlify salt ++ '-' :: (hexlify iv2 ++ '-' ::
          hexlify (P.aesgcmEncrypt st2.key iv2
            (P.lzmaCompress (P.utf8Encode pt))))) := by
  unfold GoogleSecret.decrypt at h
  cases hu : GoogleSecret.unpackEnvelope (splitDash s) with
  | error e =>
    rw [hu] at h
    simp at h
  | ok t =>
    obtain ⟨salt, iv, ct⟩ := t
    rw [hu] at h
    dsimp only at h
    refine ⟨salt, iv, ct, rfl, ?_⟩
    cases ha : P.aesgcmDecrypt (GoogleSecret.setKey P { st with salt := salt }) iv ct with
    | error e => rw [ha] at h; simp at h
    | ok pt =>
      rw [ha] at h
      dsimp only at h
      cases hl : P.lzmaDecompress pt with
      | error e => rw [hl] at h; simp at h
      | ok pt2 =>
        rw [hl] at h
        dsimp only at h
        cases hd : P.utf8Decode pt2 with
        | error e => rw [hd] at h; simp at h
        | ok sres =>
          rw [hd] at h
          dsimp only at h
          have hst : st2 = { st with
              salt := salt
              key := GoogleSecret.setKey P { st with salt := salt } } := by
            have h2 := congrArg Prod.snd h
            exact h2.symm
          subst hst
          exact ⟨rfl, rfl, rfl, rfl, rfl, rfl, fun iv2 pt => rfl⟩

def ivW : PyBytes := List.replicate 16 ⟨3, by omega⟩

/-- A concrete envelope produced by the instance itself. -/
def envW : PyStr := GoogleSecret.encrypt testPrims stDemo ivW "hi".toList

theorem C10_decrypt_overwrites_salt_and_key_witness :
    ∃ salt iv ct, GoogleSecret.unpackEnvelope (splitDash envW) = .ok (salt, iv, ct) ∧
      stDemo.salt = salt ∧
      stDemo.key = testPrims.pbkdf2Hmac "sha256".toList
        (testPrims.utf8Encode stDemo.passphrase) salt 1000 ∧
      stDemo.projectId = stDemo.projectId ∧
      stDemo.versionId = stDemo.versionId ∧
      stDemo.passphrase = stDemo.passphrase ∧
      stDemo.googleSecretName = stDemo.googleSecretName ∧
      (∀ iv2 pt, GoogleSecret.encrypt testPrims stDemo iv2 pt =
        hexlify salt ++ '-' :: (hexlify iv2 ++ '-' ::
          hexlify (testPrims.aesgcmEncrypt stDemo.key iv2
            (testPrims.lzmaCompress (testPrims.utf8Encode pt))))) :=
  C10_decrypt_overwrites_salt_and_key testPrims stDemo envW "hi".toList stDemo (by rfl)

/-- Every failure of `unhexlify` is a `binascii.Error`. -/
theorem unhexlify_error_is_binascii :
    ∀ (s : PyStr) (e : PyErr), unhexlify s = .error e → e = .binasciiError
  | [], e, h => by
    have h2 : (Except.ok [] : Except PyErr PyBytes) = .error e := h
    exact Except.noConfusion h2
  | [c], e, h => by
    have h2 : (Except.error PyErr.binasciiError : Except PyErr PyBytes) = .error e := h
    injection h2 with h3
    exact h3.symm
  | c1 :: c2 :: rest, e, h => by
    simp only [unhexlify] at h
    cases hv1 : hexVal c1 with
    | none =>
      rw [hv1] at h
      dsimp only at h
      injection h with h3
      exact h3.symm
    | some a =>
      rw [hv1] at h
      cases hv2 : hexVal c2 with
      | none =>
        rw [hv2] at h
        dsimp only at h
        injection h with h3
        exact h3.symm
      | some b =>
        rw [hv2] at h
        dsimp only at h
        cases hr : unhexlify rest with
        | ok bs => rw [hr] at h; exact Except.noConfusion h
        | error e2 =>
          rw [hr] at h
          injection h with h3
          rw [← h3]
          exact unhexlify_error_is_binascii rest e2 hr

/-- When the split does not yield exactly three parts, the unpacking line
fails with the tuple-unpacking `ValueError` or an early `binascii.Error`. -/
theorem unpackEnvelope_not_three (parts : List PyStr) (h : parts.length ≠ 3) :
    GoogleSecret.unpackEnvelope parts = .error .valueError ∨
    GoogleSecret.unpackEnvelope parts = .error .binasciiError := by
  match parts with
  | [] => exact .inl rfl
  | [a] =>
    cases ha : unhexlify a with
    | ok x =>
      left
      simp only [GoogleSecret.unpackEnvelope, ha]
    | error e =>
      have he := unhexlify_error_is_binascii a e ha
      subst he
      right
      simp only [GoogleSecret.unpackEnvelope, ha]
  | [a, b] =>
    cases ha : unhexlify a with
    | ok x =>
      cases hb : unhexlify b with
      | ok y =>
        left
        simp only [GoogleSecret.unpackEnvelope, ha, hb]
      | error e =>
        have he := unhexlify_error_is_binascii b e hb
        subst he
        right
        simp only [GoogleSecret.unpackEnvelope, ha, hb]
    | error e =>
      have he := unhexlify_error_is_binascii a e ha
      subst he
      right
      simp only [GoogleSecret.unpackEnvelope, ha]
  | [a, b, c] => exact absurd rfl h
  | a :: b :: c :: d :: rest =>
    cases ha : unhexlify a with
    | error e =>
      have he := unhexlify_error_is_binascii a e ha
      subst he
      right
      simp only [GoogleSecret.unpackEnvelope, ha]
    | ok x =>
      cases hb : unhexlify b with
      | error e =>
        have he := unhexlify_error_is_binascii b e hb
        subst he
        right
        simp only [GoogleSecret.unpackEnvelope, ha, hb]
      | ok y =>
        cases hc : unhexlify c with
        | error e =>
          have he := unhexlify_error_is_binascii c e hc
          subst he
          right
          simp only [GoogleSecret.unpackEnvelope, ha, hb, hc]
        | ok z =>
          cases hd : unhexlify d with
          | error e =>
            have he := unhexlify_error_is_binascii d e hd
            subst he
            right
            simp only [GoogleSecret.unpackEnvelope, ha, hb, hc, hd]
          | ok u =>
            left
            simp only [GoogleSecret.unpackEnvelope, ha, hb, hc, hd]

set_option maxRecDepth 10000 in
/-- C5 counterexample: an envelope string with no hyphen at all (a single
valid hex part) fails decoding with Python's generic `ValueError` from the
tuple unpacking — there is no dedicated `EnvelopeMalformed` error, and the
code never produces one. -/
theorem C5_counterexample :
    GoogleSecret.decrypt testPrims stDemo "deadbeef".toList =
      (.error PyErr.valueError, stDemo) ∧
    PyErr.valueError ≠ PyErr.envelopeMalformed := by
  exact ⟨rfl, by decide⟩

/-- C5 amended: an envelope string that does not split into exactly three
hyphen-separated parts fails decoding explicitly — never a silent truncation,
and the instance state is untouched — but with a generic error: the
tuple-unpacking `ValueError`, or a `binascii.Error` (itself a `ValueError`
subclass) from an invalid hex part; no dedicated `EnvelopeMalformed` error
class exists. -/
theorem C5_malformed_envelope_fails_with_generic_error (P : Prims) (st : SecretState)
    (s : PyStr) (h : (splitDash s).length ≠ 3) :
    ∃ e, GoogleSecret.decrypt P st s = (.error e, st) ∧
      (e = PyErr.valueError ∨ e = PyErr.binasciiError) := by
  rcases unpackEnvelope_not_three (splitDash s) h with h3 | h3
  · refine ⟨.valueError, ?_, .inl rfl⟩
    unfold GoogleSecret.decrypt
    rw [h3]
  · refine ⟨.binasciiError, ?_, .inr rfl⟩
    unfold GoogleSecret.decrypt
    rw [h3]

theorem C5_malformed_envelope_fails_with_generic_error_witness :
    ∃ e, GoogleSecret.decrypt testPrims stDemo "deadbeef".toList =
      (.error e, stDemo) ∧ (e = PyErr.valueError ∨ e = PyErr.binasciiError) :=
  C5_malformed_envelope_fails_with_generic_error testPrims stDemo "deadbeef".toList
    (by decide)

/-- The environment of an operator who supplies the wrong passphrase. -/
def envWrongPass : PyEnv :=
  { googleProjectId := none
    cnGoogleSecretVersionId := none
    cnGoogleSecretManagerPassphrase := some "wrong".toList
    cnSecretGoogleSecret := none }

def stWrong : SecretState := GoogleSecret.init testPrims envWrongPass salt16A false

/-- An envelope encrypted under `stDemo`'s (default) passphrase. -/
def envC2 : PyStr := GoogleSecret.encrypt testPrims stDemo ivW "top".toList

def ctC2 : PyBytes :=
  testPrims.aesgcmEncrypt stDemo.key ivW
    (testPrims.lzmaCompress (testPrims.utf8Encode "top".toList))

set_option maxRecDepth 10000 in
/-- C2 counterexample: decrypting an envelope with a different passphrase
than the one it was encrypted under does not fail with a distinguishable
`AuthenticationFailure`: the `InvalidTag` is caught and only logged, after
which the code raises a generic `AttributeError` (calling `.decode` on the
`str` sentinel `""`). -/
theorem C2_counterexample :
    (GoogleSecret.decrypt testPrims stWrong envC2).1 = .error PyErr.attributeError ∧
    PyErr.attributeError ≠ PyErr.authenticationFailure := by
  exact ⟨rfl, by decide⟩

/-- C2 amended: whenever the AEAD tag does not verify under the re-derived
key (wrong passphrase, corrupted ciphertext, or wrong nonce/key pairing),
`_decrypt` never returns plaintext — but the failure surfaces as a generic
`AttributeError` (the caught-and-logged `InvalidTag` leaves the `str`
sentinel `""`, whose `.decode("utf8")` then raises), not as a distinguishable
`AuthenticationFailure`; the salt/key mutation has already happened. -/
theorem C2_invalid_tag_raises_attribute_error (P : Prims) (st : SecretState) (s : PyStr)
    (salt iv ct : PyBytes)
    (hu : GoogleSecret.unpackEnvelope (splitDash s) = .ok (salt, iv, ct))
    (ha : P.aesgcmDecrypt (GoogleSecret.setKey P { st with salt := salt }) iv ct =
      .error ()) :
    GoogleSecret.decrypt P st s = (.error PyErr.attributeError,
      { st with
        salt := salt
        key := GoogleSecret.setKey P { st with salt := salt } }) := by
  unfold GoogleSecret.decrypt
  rw [hu]
  dsimp only
  rw [ha]

set_option maxRecDepth 10000 in
theorem C2_invalid_tag_raises_attribute_error_witness :
    GoogleSecret.decrypt testPrims stWrong envC2 = (.error PyErr.attributeError,
      { stWrong with
        salt := salt16A
        key := GoogleSecret.setKey testPrims { stWrong with salt := salt16A } }) :=
  C2_invalid_tag_raises_attribute_error testPrims stWrong envC2 salt16A ivW ctC2
    (by rfl) (by rfl)

/-- C4: for a mapping M and the passphrase at hand, running the full write
pipeline (serialise, inner lzma compress, AEAD encrypt under the key derived
from the embedded salt, hex envelope, UTF-8 encode, outer zlib compress) and
then the full read pipeline (outer zlib decompress, UTF-8 decode, envelope
split, key re-derivation from the embedded salt, AEAD decrypt, inner lzma
decompress, parse) reconstructs M exactly — given that the external codecs
are lossless, the AEAD inverts on matching key/nonce, the serialiser/parser
pair inverts on M, and the instance key is the one derived from the instance
salt (as `__init__` establishes and `_decrypt` preserves). -/
theorem C4_write_read_round_trip (P : Prims) (st : SecretState) (iv : PyBytes)
    (m : PyDict)
    (hZ : ∀ x, P.zlibDecompress (P.zlibCompress x) = .ok x)
    (hU : ∀ s, P.utf8Decode (P.utf8Encode s) = .ok s)
    (hA : ∀ k i x, P.aesgcmDecrypt k i (P.aesgcmEncrypt k i x) = .ok x)
    (hL : ∀ x, P.lzmaDecompress (P.lzmaCompress x) = .ok x)
    (hJ : P.jsonLoads (P.safeValueStr m) = .ok m)
    (hK : st.key = GoogleSecret.setKey P st) :
    readStored P st (storedPayload P st iv m) = (.ok m, st) := by
  unfold readStored storedPayload
  rw [hZ]
  try dsimp only
  rw [hU]
  try dsimp only
  unfold GoogleSecret.decrypt GoogleSecret.encrypt
  rw [splitDash_envelope]
  simp only [GoogleSecret.unpackEnvelope, unhexlify_hexlify]
  try dsimp only
  rw [← hK]
  rw [hA]
  try dsimp only
  rw [hL]
  try dsimp only
  rw [hU]
  try dsimp only
  rw [hJ]

/-- The mapping used for the concrete round-trip run. -/
def mW : PyDict := [(aKey, PyValue.vInt 1)]

set_option maxRecDepth 100000 in
theorem C4_write_read_round_trip_witness :
    readStored testPrims stDemo (storedPayload testPrims stDemo ivW mW) =
      (.ok mW, stDemo) :=
  C4_write_read_round_trip testPrims stDemo ivW mW
    testPrims_zlib_rt testPrims_utf8_rt testPrims_aes_rt testPrims_lzma_rt
    (by rfl) (by rfl)

/-- The payload stored by the `set_all`-style call (`set` with `data`). -/
def blob1 : PyBytes :=
  testPrims.zlibCompress (testPrims.utf8Encode
    (GoogleSecret.encrypt testPrims stDemo (testPrims.urandom16 0)
      (testPrims.safeValueStr [(aKey, PyValue.vInt 1)])))

def wAfter1 : World := { resource := some [blob1] }

/-- The payload stored by the subsequent single-key `set`. -/
def blob2 : PyBytes :=
  testPrims.zlibCompress (testPrims.utf8Encode
    (GoogleSecret.encrypt testPrims stDemo (testPrims.urandom16 1)
      (testPrims.safeValueStr [(bKey, PyValue.vInt 2)])))

def wAfter2 : World := { resource := some [blob1, blob2] }

/-- The latest stored version of a world. -/
def latestVersion (w : World) : PyBytes :=
  match w.resource with
  | some vs => vs.getLastD []
  | none => []

set_option maxRecDepth 100000 in
/-- C6: the claim says `set_all({"a":1})` followed by `set("b", 2)` yields
`all() == {"a":1, "b":2}`.  Evaluating the code: the `set_all`-style call
stores an encrypted `{"a":1}`; the subsequent `set("b", 2)` fetches the
current mapping via `all()`, which returns `{}` without consulting the
backend (dead retry loop), so the "merged" mapping written as the new latest
version is `{"b":2}` — the previously stored `"a"` is lost — and a final
`all()` returns `{}` regardless, not the claimed merge. -/
theorem C6_set_does_not_merge :
    GoogleSecret.set testPrims stDemo 0 wAbsent aKey (PyValue.vInt 1)
      (some [(aKey, PyValue.vInt 1)]) = some (.ok true, stDemo, 1, wAfter1) ∧
    GoogleSecret.set testPrims stDemo 1 wAfter1 bKey (PyValue.vInt 2) none =
      some (.ok true, stDemo, 2, wAfter2) ∧
    GoogleSecret.all testPrims stDemo 2 wAfter2 = some (.ok [], stDemo, 2, wAfter2) ∧
    (readStored testPrims stDemo (latestVersion wAfter2)).1 =
      .ok [(bKey, PyValue.vInt 2)] ∧
    [(bKey, PyValue.vInt 2)] ≠ [(aKey, PyValue.vInt 1), (bKey, PyValue.vInt 2)] := by
  refine ⟨rfl, rfl, rfl, by rfl, fun h => ?_⟩
  exact absurd (congrArg List.length h) (by decide)
